import Mathlib

/-!
Verification of the editor state machine in `src/main.rs`: the `Editor`
application state, its `update` transition function, the asynchronous
commands it issues (file load, file pick, file save), and the pieces of
`view` that the specification constrains (the status bar and the
highlighter extension).

Paths (`PathBuf`, `&Path`) are modelled as `String` (so `OsStr::to_str`
always succeeds), `Arc<String>` as `String`, and the filesystem / dialog
environment as an explicit `FsEnv` record threaded through effect
execution.
-/

namespace IcedEditor

/-- Subset of `std::io::ErrorKind` relevant to the model; `other` covers the
remaining kinds. -/
inductive IoErrorKind where
  | notFound
  | permissionDenied
  | other
deriving DecidableEq, Repr

/-- Debug-style message for an `io::ErrorKind`, standing for
`error.to_string()` in the status bar. The exact wording is immaterial. -/
def IoErrorKind.message : IoErrorKind → String
  | .notFound => "entity not found"
  | .permissionDenied => "permission denied"
  | .other => "io error"

/-- The `Error` enum of `main.rs`: a user-cancelled dialog, or a filesystem
failure carrying its `io::ErrorKind`. -/
inductive Error where
  | DialogClosed
  | IoFailed (kind : IoErrorKind)
deriving DecidableEq, Repr

/-- The `iced::highlighter::Theme` enumeration (external library type). -/
inductive HighlighterTheme where
  | SolarizedDark
  | Base16Mocha
  | Base16Ocean
  | Base16Eighties
  | InspiredGitHub
deriving DecidableEq, Repr

/-- The `text_editor::Edit` primitive of the UI toolkit: the mutating edit
actions. -/
inductive EditPrim where
  | insert (c : Char)
  | paste (s : String)
  | enter
  | backspace
  | delete
deriving DecidableEq, Repr

/-- The `text_editor::Action` enum of the UI toolkit: cursor motions,
selections, clicks, drags and scrolls do not mutate the text; only the
`edit` variant does. `Motion` and screen points are abstracted to numbers. -/
inductive Action where
  | move (target : Nat)
  | select (target : Nat)
  | selectWord
  | selectLine
  | edit (e : EditPrim)
  | click (x y : Nat)
  | drag (x y : Nat)
  | scroll (lines : Int)
deriving DecidableEq, Repr

/-- `Action::is_edit`: true exactly on the `edit` variant. -/
def Action.is_edit : Action → Bool
  | .edit _ => true
  | _ => false

/-- `text_editor::Content`: the text buffer plus a cursor, the cursor
modelled as a byte offset into the text. -/
structure Content where
  text : String
  cursor : Nat
deriving DecidableEq, Repr

/-- `Content::with(text)`: a buffer holding `text` with the cursor at the
start. -/
def Content.withText (t : String) : Content := ⟨t, 0⟩

/-- `Content::new()`: the empty buffer. -/
def Content.new : Content := ⟨"", 0⟩

def strInsert (s : String) (i : Nat) (t : String) : String :=
  s.take i ++ t ++ s.drop i

def strRemove (s : String) (i : Nat) : String :=
  s.take i ++ s.drop (i + 1)

/-- `Content::edit(action)`: applies the toolkit's edit primitive. Mutating
actions change the text at the cursor; all other actions leave the text
unchanged (they move the cursor or selection only). -/
def Content.edit (c : Content) : Action → Content
  | .edit (.insert ch) => ⟨strInsert c.text c.cursor (String.singleton ch), c.cursor + 1⟩
  | .edit (.paste t) => ⟨strInsert c.text c.cursor t, c.cursor + t.length⟩
  | .edit .enter => ⟨strInsert c.text c.cursor "\n", c.cursor + 1⟩
  | .edit .backspace =>
      if c.cursor = 0 then c else ⟨strRemove c.text (c.cursor - 1), c.cursor - 1⟩
  | .edit .delete => ⟨strRemove c.text c.cursor, c.cursor⟩
  | .move target => ⟨c.text, min target c.text.length⟩
  | .select _ => c
  | .selectWord => c
  | .selectLine => c
  | .click _ _ => c
  | .drag _ _ => c
  | .scroll _ => c

deriving instance DecidableEq for Except

/-- The `Message` enum of `main.rs`. `Result<T, Error>` is `Except Error T`. -/
inductive Message where
  | Edit (action : Action)
  | Open
  | New
  | Save
  | FileSaved (r : Except Error String)
  | FileOpened (r : Except Error (String × String))
  | ThemeSelected (t : HighlighterTheme)
deriving DecidableEq, Repr

/-- The commands (`iced::Command`) the dispatcher can issue: none, or one
asynchronous effect whose completion is re-injected as a `Message`. -/
inductive Command where
  | none
  | performPick
  | performLoad (path : String)
  | performSave (path : Option String) (text : String)
deriving DecidableEq, Repr

/-- The `Editor` application state of `main.rs`. -/
structure Editor where
  path : Option String
  content : Content
  error : Option Error
  theme : HighlighterTheme
  is_dirty : Bool
deriving DecidableEq, Repr

/-- `Editor::update`: the synchronous transition function. Returns the new
state together with the command issued (mirrors `&mut self` plus the
returned `Command<Message>`). -/
def Editor.update (s : Editor) : Message → Editor × Command
  | .Edit action =>
      ({ s with
          is_dirty := s.is_dirty || action.is_edit
          error := Option.none
          content := s.content.edit action }, .none)
  | .FileOpened (.ok (path, content)) =>
      ({ s with
          path := some path
          content := Content.withText content
          is_dirty := false }, .none)
  | .FileOpened (.error e) => ({ s with error := some e }, .none)
  | .Open => (s, .performPick)
  | .New =>
      ({ s with
          path := Option.none
          content := Content.new
          is_dirty := true }, .none)
  | .Save => (s, .performSave s.path s.content.text)
  | .FileSaved (.ok path) =>
      ({ s with path := some path, is_dirty := false }, .none)
  | .FileSaved (.error e) => ({ s with error := some e }, .none)
  | .ThemeSelected t => ({ s with theme := t }, .none)

/-- Stands for the compile-time constant `include_str!("main.rs")`: the
program's own source text embedded in the binary. The state machine never
inspects its value, so it is modelled as an abstract non-empty constant. -/
def mainRsSource : String :=
  "use std::io;\nfn main() -> iced::Result ..."

/-- Stands for the compile-time constant `env!("CARGO_MANIFEST_DIR")`. -/
def cargoManifestDir : String := "/repo/iced-editor-tutorial"

/-- `default_file()`: the path of the program's own `main.rs`, i.e.
`format!("CARGO_MANIFEST_DIR/src/main.rs")`. -/
def default_file : String := cargoManifestDir ++ "/src/main.rs"

/-- `Editor::new`: the startup state and the initial command. The buffer is
pre-filled with the embedded source, and one load of the default file is
issued, completing into `Message::FileOpened`. -/
def Editor.new : Editor × Command :=
  ({ path := Option.none
     content := Content.withText mainRsSource
     error := Option.none
     theme := .SolarizedDark
     is_dirty := true },
   .performLoad default_file)

/-- The external environment of the asynchronous effects: the filesystem
(read result per path) and the outcome of a file dialog (`none` when the
user closes it). A pending write failure is injected via `writeError`. -/
structure FsEnv where
  fs : String → Except IoErrorKind String
  dialogResult : Option String
  writeError : Option IoErrorKind

/-- `load_file(path)`: reads the file's full text, classifying a read
failure by its `io::ErrorKind`. -/
def load_file (env : FsEnv) (path : String) : Except Error (String × String) :=
  match env.fs path with
  | .ok contents => .ok (path, contents)
  | .error k => .error (.IoFailed k)

/-- `pick_file()`: prompts for a file; cancellation is `DialogClosed`,
otherwise the chosen file is loaded via `load_file`. -/
def pick_file (env : FsEnv) : Except Error (String × String) :=
  match env.dialogResult with
  | Option.none => .error .DialogClosed
  | some p => load_file env p

/-- `save_file(path, text)`: resolves the target path (dialog when absent;
cancellation is `DialogClosed`), then writes `text` to it. Returns the
filesystem after the call together with the result. -/
def save_file (env : FsEnv) (path : Option String) (text : String) :
    (String → Except IoErrorKind String) × Except Error String :=
  match (match path with
         | some p => Except.ok p
         | Option.none =>
             match env.dialogResult with
             | some p => Except.ok p
             | Option.none => Except.error Error.DialogClosed) with
  | .error e => (env.fs, .error e)
  | .ok p =>
      match env.writeError with
      | some k => (env.fs, .error (.IoFailed k))
      | Option.none => (fun q => if q = p then .ok text else env.fs q, .ok p)

/-- Executes a command against the environment: returns the filesystem
after the effect and the completion message it dispatches (if any). -/
def runCommand (env : FsEnv) :
    Command → (String → Except IoErrorKind String) × Option Message
  | .none => (env.fs, Option.none)
  | .performPick => (env.fs, some (.FileOpened (pick_file env)))
  | .performLoad p => (env.fs, some (.FileOpened (load_file env p)))
  | .performSave p t =>
      let r := save_file env p t
      (r.1, some (.FileSaved r.2))

/-- Folds a list of messages through the transition function (commands
issued along the way are discarded; they do not touch the state). -/
def run (s : Editor) : List Message → Editor
  | [] => s
  | m :: ms => run (s.update m).1 ms

/-- The events after which the claim no longer asserts dirtiness:
a successful load, a successful save, or a reset to a new document. -/
def clearsDirty : Message → Bool
  | .FileOpened (.ok _) => true
  | .FileSaved (.ok _) => true
  | .New => true
  | _ => false

/-- The events that can change the `error` field: edits (which clear it)
and failed completions (which set it). -/
def touchesError : Message → Bool
  | .Edit _ => true
  | .FileOpened (.error _) => true
  | .FileSaved (.error _) => true
  | _ => false

/-- The status widget rendered at the bottom left of the view. -/
inductive StatusLine where
  | errorText (msg : String)
  | pathText (p : String)
  | newFile
deriving DecidableEq, Repr

/-- The status part of `Editor::view`: an error message exactly when
`error` holds `Error::IoFailed`; otherwise the path, or "New file" when
there is none. -/
def statusLine (s : Editor) : StatusLine :=
  match s.error with
  | some (Error.IoFailed k) => .errorText k.message
  | _ =>
      match s.path with
      | some p => .pathText p
      | Option.none => .newFile

/-- The final component of a path (`Path::file_name`), as a string. -/
def fileName (p : String) : String :=
  match (p.splitOn "/").reverse with
  | [] => p
  | n :: _ => n

/-- `Path::extension`: the part of the file name after the last dot; none
when there is no dot, or when the only dot leads a hidden file name. -/
def pathExtension (p : String) : Option String :=
  let parts := (fileName p).splitOn "."
  if parts.length ≤ 1 then Option.none
  else if parts.length = 2 ∧ parts.headD "" = "" then Option.none
  else some (parts.getLastD "")

/-- The extension handed to the highlighter in `Editor::view`:
`self.path.as_ref().and_then(|path| path.extension()?.to_str()).unwrap_or("rs")`
(`to_str` always succeeds in the string model of paths). -/
def highlightExtension (s : Editor) : String :=
  (s.path.bind fun p => pathExtension p).getD "rs"

/-- C3: after dispatching any Edit event — for every edit action, mutating
or not, and for every prior state — the error field is None. -/
theorem edit_clears_error (s : Editor) (a : Action) :
    ((s.update (Message.Edit a)).1).error = Option.none := rfl

/-- C2: for every error payload, `FileOpened(Err(e))` leaves content, path,
dirty flag and theme unchanged and only sets the error field, and
`FileSaved(Err(e))` does the same. -/
theorem failed_io_preserves_state (s : Editor) (e : Error) :
    ((s.update (Message.FileOpened (Except.error e))).1.content = s.content ∧
     (s.update (Message.FileOpened (Except.error e))).1.path = s.path ∧
     (s.update (Message.FileOpened (Except.error e))).1.is_dirty = s.is_dirty ∧
     (s.update (Message.FileOpened (Except.error e))).1.theme = s.theme ∧
     (s.update (Message.FileOpened (Except.error e))).1.error = some e) ∧
    ((s.update (Message.FileSaved (Except.error e))).1.content = s.content ∧
     (s.update (Message.FileSaved (Except.error e))).1.path = s.path ∧
     (s.update (Message.FileSaved (Except.error e))).1.is_dirty = s.is_dirty ∧
     (s.update (Message.FileSaved (Except.error e))).1.theme = s.theme ∧
     (s.update (Message.FileSaved (Except.error e))).1.error = some e) :=
  ⟨⟨rfl, rfl, rfl, rfl, rfl⟩, ⟨rfl, rfl, rfl, rfl, rfl⟩⟩

/-- C5: `FileOpened(Ok(path, text))` replaces the content with a fresh
buffer holding `text`, sets the path, and clears the dirty flag, for every
path, text and prior state. -/
theorem file_opened_ok_sets (s : Editor) (p t : String) :
    (s.update (Message.FileOpened (Except.ok (p, t)))).1.content = Content.withText t ∧
    (Content.withText t).text = t ∧
    (s.update (Message.FileOpened (Except.ok (p, t)))).1.path = some p ∧
    (s.update (Message.FileOpened (Except.ok (p, t)))).1.is_dirty = false :=
  ⟨rfl, rfl, rfl, rfl⟩

/-- C6: `FileSaved(Ok(path))` sets the path and clears the dirty flag while
leaving the content unchanged, for every path and prior state. -/
theorem file_saved_ok_sets (s : Editor) (p : String) :
    (s.update (Message.FileSaved (Except.ok p))).1.path = some p ∧
    (s.update (Message.FileSaved (Except.ok p))).1.is_dirty = false ∧
    (s.update (Message.FileSaved (Except.ok p))).1.content = s.content :=
  ⟨rfl, rfl, rfl⟩

/-- C9: `New` clears the path, replaces the content with the empty buffer,
and sets the dirty flag, but leaves the error field unchanged; moreover
only Edit events and failed completions ever change the error field. -/
theorem new_resets_document (s : Editor) :
    (s.update Message.New).1.path = Option.none ∧
    (s.update Message.New).1.content = Content.new ∧
    Content.new.text = "" ∧
    (s.update Message.New).1.is_dirty = true ∧
    (s.update Message.New).1.error = s.error ∧
    ∀ m : Message, touchesError m = false → ((s.update m).1).error = s.error := by
  refine ⟨rfl, rfl, rfl, rfl, rfl, ?_⟩
  intro m hm
  cases m with
  | Edit a => simp [touchesError] at hm
  | Open => rfl
  | New => rfl
  | Save => rfl
  | FileSaved r =>
      cases r with
      | ok p => rfl
      | error e => simp [touchesError] at hm
  | FileOpened r =>
      cases r with
      | ok pr => obtain ⟨p, t⟩ := pr; rfl
      | error e => simp [touchesError] at hm
  | ThemeSelected t => rfl

/-- C7: `FileOpened(Err(DialogClosed))` leaves content and path unchanged,
and the resulting status line is identical to the idle (error-free) status
line; in general the status line shows an error message only when the error
field holds `IoFailed`. -/
theorem dialog_closed_not_error (s : Editor) :
    (s.update (Message.FileOpened (Except.error Error.DialogClosed))).1.content = s.content ∧
    (s.update (Message.FileOpened (Except.error Error.DialogClosed))).1.path = s.path ∧
    statusLine (s.update (Message.FileOpened (Except.error Error.DialogClosed))).1 =
      statusLine { s with error := Option.none } ∧
    ∀ (t : Editor) (msg : String), statusLine t = StatusLine.errorText msg →
      ∃ k, t.error = some (Error.IoFailed k) := by
  refine ⟨rfl, rfl, rfl, ?_⟩
  intro t msg h
  simp only [statusLine] at h
  rcases he : t.error with _ | e
  · rw [he] at h
    rcases hp : t.path with _ | p <;> rw [hp] at h <;> simp at h
  · rcases e with _ | k
    · rw [he] at h
      rcases hp : t.path with _ | p <;> rw [hp] at h <;> simp at h
    · exact ⟨k, rfl⟩

/-- C8 counterexample: on a state with no path the highlighter extension is
"rs" (Rust source), not a plain-text "txt" default. -/
theorem highlight_extension_not_txt :
    highlightExtension
        ⟨Option.none, Content.new, Option.none, HighlighterTheme.SolarizedDark, true⟩ = "rs" ∧
    ("rs" : String) ≠ "txt" :=
  ⟨rfl, by decide⟩

/-- C8 (amended): the extension handed to the highlighter is the extension
of the document path, defaulting to "rs" when the path is absent or has no
usable extension. -/
theorem highlight_extension_characterisation (s : Editor) :
    highlightExtension s =
      match s.path with
      | Option.none => "rs"
      | some p =>
          match pathExtension p with
          | Option.none => "rs"
          | some e => e := by
  unfold highlightExtension
  rcases s.path with _ | p
  · rfl
  · rcases h : pathExtension p with _ | e <;> simp [h]

/-- C10: the startup state is not an empty document: no path, dirty, the
buffer pre-filled with the program's own embedded source, no error, theme
SolarizedDark; and exactly one load of the default file (the program's own
`main.rs`) is issued, completing into the same `FileOpened` message used
for user-triggered opens. -/
theorem initial_state :
    Editor.new.1.path = Option.none ∧
    Editor.new.1.is_dirty = true ∧
    Editor.new.1.content = Content.withText mainRsSource ∧
    Editor.new.1.content.text = mainRsSource ∧
    mainRsSource ≠ "" ∧
    Editor.new.1.error = Option.none ∧
    Editor.new.1.theme = HighlighterTheme.SolarizedDark ∧
    Editor.new.2 = Command.performLoad default_file ∧
    default_file = cargoManifestDir ++ "/src/main.rs" ∧
    ∀ env : FsEnv, (runCommand env Editor.new.2).2 =
      some (Message.FileOpened (load_file env default_file)) :=
  ⟨rfl, rfl, rfl, rfl, by decide, rfl, rfl, rfl, rfl, fun _ => rfl⟩

theorem save_file_writes (env : FsEnv) (path : Option String) (t p : String)
    (h : (save_file env path t).2 = Except.ok p) :
    (save_file env path t).1 p = Except.ok t := by
  rcases path with _ | q
  · rcases hd : env.dialogResult with _ | q
    · simp [save_file, hd] at h
    · rcases hw : env.writeError with _ | k
      · simp [save_file, hd, hw] at h ⊢
        subst h
        simp
      · simp [save_file, hd, hw] at h
  · rcases hw : env.writeError with _ | k
    · simp [save_file, hw] at h ⊢
      subst h
      simp
    · simp [save_file, hw] at h

/-- C1: `Save` leaves the state unchanged and captures the document text
synchronously at dispatch; if a later Edit changes the buffer from T0 to
T1 before the save effect completes, the completed save still wrote T0. -/
theorem save_snapshot_correctness (s : Editor) (a : Action) (env : FsEnv)
    (p T0 T1 : String)
    (h0 : s.content.text = T0)
    (_h1 : (((s.update Message.Save).1.update (Message.Edit a)).1).content.text = T1)
    (hok : (runCommand env (s.update Message.Save).2).2 =
      some (Message.FileSaved (Except.ok p))) :
    (s.update Message.Save).1 = s ∧
    (runCommand env (s.update Message.Save).2).1 p = Except.ok T0 := by
  refine ⟨rfl, ?_⟩
  have h2 : (s.update Message.Save).2 = Command.performSave s.path s.content.text := rfl
  rw [h2] at hok ⊢
  simp only [runCommand, Option.some.injEq, Message.FileSaved.injEq] at hok ⊢
  subst h0
  exact save_file_writes env s.path s.content.text p hok

/-- C1 witness: a concrete dispatch of Save with buffer "T0", followed by
an Edit inserting a character (buffer "T0x"), with a successful write: the
filesystem after the effect holds "T0" at the saved path. -/
theorem save_snapshot_correctness_witness :
    ((⟨some "/a.txt", ⟨"T0", 2⟩, Option.none, HighlighterTheme.SolarizedDark,
        true⟩ : Editor).update Message.Save).1 =
      ⟨some "/a.txt", ⟨"T0", 2⟩, Option.none, HighlighterTheme.SolarizedDark, true⟩ ∧
    (runCommand
        ⟨fun _ => Except.error IoErrorKind.notFound, Option.none, Option.none⟩
        ((⟨some "/a.txt", ⟨"T0", 2⟩, Option.none, HighlighterTheme.SolarizedDark,
            true⟩ : Editor).update Message.Save).2).1 "/a.txt" = Except.ok "T0" :=
  save_snapshot_correctness
    ⟨some "/a.txt", ⟨"T0", 2⟩, Option.none, HighlighterTheme.SolarizedDark, true⟩
    (Action.edit (EditPrim.insert 'x'))
    ⟨fun _ => Except.error IoErrorKind.notFound, Option.none, Option.none⟩
    "/a.txt" "T0" "T0x" rfl (by decide) (by decide)

theorem dirty_preserved (s : Editor) (m : Message)
    (hd : s.is_dirty = true) (hm : clearsDirty m = false) :
    ((s.update m).1).is_dirty = true := by
  cases m with
  | Edit a => simp [Editor.update, hd]
  | Open => exact hd
  | New => simp [clearsDirty] at hm
  | Save => exact hd
  | FileSaved r =>
      cases r with
      | ok p => simp [clearsDirty] at hm
      | error e => exact hd
  | FileOpened r =>
      cases r with
      | ok pr => simp [clearsDirty] at hm
      | error e => exact hd
  | ThemeSelected t => exact hd

theorem run_dirty_preserved (s : Editor) (ms : List Message)
    (hd : s.is_dirty = true) (hms : ∀ m ∈ ms, clearsDirty m = false) :
    (run s ms).is_dirty = true := by
  induction ms generalizing s with
  | nil => exact hd
  | cons m ms ih =>
      simp only [run]
      exact ih _ (dirty_preserved s m hd (hms m (by simp)))
        (fun m2 hm2 => hms m2 (by simp [hm2]))

/-- C4: a mutating Edit sets the dirty flag (it becomes isDirty OR
action_is_mutating, so a non-mutating Edit leaves it unchanged), and it
stays true across every subsequent event until a `FileOpened(Ok)`,
`FileSaved(Ok)` or `New` event. -/
theorem dirty_monotone (s : Editor) (a b : Action) (ms : List Message)
    (ha : a.is_edit = true) (hb : b.is_edit = false)
    (hms : ∀ m ∈ ms, clearsDirty m = false) :
    ((s.update (Message.Edit a)).1).is_dirty = true ∧
    ((s.update (Message.Edit b)).1).is_dirty = s.is_dirty ∧
    (run (s.update (Message.Edit a)).1 ms).is_dirty = true := by
  refine ⟨by simp [Editor.update, ha], by simp [Editor.update, hb], ?_⟩
  exact run_dirty_preserved _ ms (by simp [Editor.update, ha]) hms

/-- C4 witness: from a clean state, a mutating Edit (Enter) sets the dirty
flag and it survives an Open request, a failed save, and a theme change;
a cursor motion Edit leaves the flag unchanged. -/
theorem dirty_monotone_witness :
    (((⟨Option.none, Content.new, Option.none, HighlighterTheme.SolarizedDark,
        false⟩ : Editor).update (Message.Edit (Action.edit EditPrim.enter))).1).is_dirty = true ∧
    (((⟨Option.none, Content.new, Option.none, HighlighterTheme.SolarizedDark,
        false⟩ : Editor).update (Message.Edit (Action.move 0))).1).is_dirty = false ∧
    (run ((⟨Option.none, Content.new, Option.none, HighlighterTheme.SolarizedDark,
        false⟩ : Editor).update (Message.Edit (Action.edit EditPrim.enter))).1
      [Message.Open, Message.FileSaved (Except.error Error.DialogClosed),
       Message.ThemeSelected HighlighterTheme.InspiredGitHub]).is_dirty = true :=
  dirty_monotone
    ⟨Option.none, Content.new, Option.none, HighlighterTheme.SolarizedDark, false⟩
    (Action.edit EditPrim.enter) (Action.move 0)
    [Message.Open, Message.FileSaved (Except.error Error.DialogClosed),
     Message.ThemeSelected HighlighterTheme.InspiredGitHub]
    rfl rfl (by decide)

end IcedEditor
